import Mathlib

/-!
Verification development for the pragma-sdk fetch/publish pipeline.

The definitions below are a shallow embedding of the Python sources:
  * `pragma/core/mixins/oracle.py` (batch publisher, checkpoint publisher,
    oracle read client),
  * `pragma/publisher/fetchers/cex.py`, `coinbase.py`,
  * `pragma/publisher/future_fetchers/binance.py`, `okx.py`.

Machine floats of the source are idealised as exact rationals; Python's
`int(x)` conversion (truncation toward zero) is `pythonIntOfRat`.  Stateful
network interaction is embedded by passing the response of each HTTP
endpoint as an explicit environment argument, and by returning the list of
on-chain calls a method performs.  A raised Python exception is an
`Except.error`; `asyncio.gather(..., return_exceptions=True)` places the
captured exception in the result list (`GatherItem.exn`).
-/

set_option linter.unusedVariables false

/-- Kind of a normalized price observation (spot vs future instrument). -/
inductive EntryKind where
  | spot
  | future
deriving DecidableEq

/-- Modelled from the spec: `str_to_felt` lives in `pragma/core/utils.py`, which is
not among the sources.  The spec (section 3) says a pair id is "a canonical integer
derived deterministically from base/quote symbols"; we model the usual big-endian
byte encoding of the short string. -/
def strToFelt (s : String) : Nat :=
  s.toList.foldl (fun acc c => acc * 256 + c.toNat) 0

/-- Modelled from the spec: `currency_pair_to_pair_id` lives in `pragma/core/utils.py`
(not among the sources); the canonical integer id of the pair `base/quote`. -/
def currencyPairToPairId (base quote : String) : Nat :=
  strToFelt (base ++ "/" ++ quote)

/-- A normalized price observation (`SpotEntry` / `FutureEntry` of
`pragma/core/entry.py`, fields as listed in spec section 3).  A `SpotEntry`
is an `Entry` with `kind = spot` and `expiryTimestamp = 0`. -/
structure Entry where
  kind : EntryKind
  pairId : Nat
  price : Int
  timestamp : Int
  volume : ℚ
  source : String
  publisher : String
  expiryTimestamp : Int
deriving DecidableEq

/-- An asset record of the external catalog: `asset["type"]`,
`asset["pair"][0]`, `asset["pair"][1]`, `asset["decimals"]`. -/
structure Asset where
  assetType : String
  base : String
  quote : String
  decimals : Nat
deriving DecidableEq

/-- Python `int(q)` on a real number: truncation toward zero (stated with the
executable `Rat.floor`; `pythonIntOfRat_nonneg` below identifies it with the
mathematical floor on nonnegative inputs). -/
def pythonIntOfRat (q : ℚ) : Int :=
  if 0 ≤ q then q.floor else -(-q).floor

/-- The computation `int(price * (10 ** decimals))` as it appears in every `_construct`. -/
def scalePrice (price : ℚ) (decimals : Nat) : Int :=
  pythonIntOfRat (price * (10 : ℚ) ^ decimals)

/-- One step of the pagination loop `while ix < len(l): subset = l[ix : ix+p]; ix += p`,
with an explicit fuel so that the function is structural (the loop runs at most
`l.length` iterations whenever `0 < p`). -/
def chunksGo {α : Type} (p : Nat) : Nat → List α → List (List α)
  | _, [] => []
  | 0, _ :: _ => []
  | fuel + 1, x :: xs => (x :: xs).take p :: chunksGo p fuel ((x :: xs).drop p)

/-- The successive slices `l[0:p], l[p:2p], ...` taken by the pagination loops of
`oracle.py` (meaningful for `0 < p`; the source only paginates with a truthy,
hence positive, page size). -/
def chunks {α : Type} (p : Nat) (l : List α) : List (List α) :=
  chunksGo p l.length l

/-- The account/client state of `OracleMixin` that the write paths consult:
`self.is_user_client`. -/
structure ClientState where
  isUserClient : Bool

/-- One `publish_data_entries` invocation of `publish_many`: the envelope kind
(`{"Spot": entry}` vs `{"Future": entry}`) and the page of entries submitted. -/
structure PublishCall where
  kind : EntryKind
  page : List Entry
deriving DecidableEq

/-- Modelled from the spec: `SpotEntry.serialize_entries` lives in
`pragma/core/entry.py`, which is not among the sources.  Per spec section 4.3 the
batch publisher "partitions entries into spot and future groups" with the kind
intrinsic to each entry, so it is the order-preserving selection of the
spot-kind entries. -/
def serializeSpotEntries (entries : List Entry) : List Entry :=
  entries.filter fun e => e.kind = EntryKind.spot

/-- Modelled from the spec: `FutureEntry.serialize_entries` of
`pragma/core/entry.py` (not among the sources); the order-preserving selection
of the future-kind entries. -/
def serializeFutureEntries (entries : List Entry) : List Entry :=
  entries.filter fun e => e.kind = EntryKind.future

/-- The `publish_data_entries` calls one of the two halves of `publish_many`
issues for one serialized group: paginated slices when `pagination` is truthy
(Python truthiness: a `Some` positive number), otherwise a single unpaged call
if the group is non-empty. -/
def pageCalls (k : EntryKind) (pagination : Option Nat) (group : List Entry) :
    List PublishCall :=
  match pagination with
  | some (p + 1) => (chunks (p + 1) group).map fun pg => { kind := k, page := pg }
  | _ => if 0 < group.length then [{ kind := k, page := group }] else []

/-- Embedding of `OracleMixin.publish_many` (oracle.py lines 66-129).  Returns the list of
`publish_data_entries` invocations, in submission order; the empty-entries
short-circuit is the bare `return` of the source (`none`).  Note that the
source performs no `is_user_client` check here: `st` is deliberately unread. -/
def publishMany (st : ClientState) (entries : List Entry) (pagination : Option Nat) :
    Option (List PublishCall) :=
  if entries.length = 0 then none
  else
    some (pageCalls EntryKind.spot pagination (serializeSpotEntries entries) ++
      pageCalls EntryKind.future pagination (serializeFutureEntries entries))

/-- The message of the `AttributeError` raised by the checkpoint write paths when
`self.is_user_client` is not set. -/
def accountError : String :=
  "Must set account.  You may do this by invoking self._setup_account_client(private_key, account_contract_address)"

/-- The `UnboundLocalError` Python raises at `return invocation` when the
pagination loop body never ran (empty input with pagination enabled). -/
def unboundLocalError : String :=
  "UnboundLocalError: local variable referenced before assignment"

/-- The aggregation-mode selector passed through to the oracle. -/
inductive AggregationMode where
  | median
deriving DecidableEq

/-- Embedding of `DataTypes` of `pragma/core/types.py`: the query/write key kind. -/
inductive DataTypes where
  | spot
  | future
deriving DecidableEq

/-- Embedding of `DataType` of `pragma/core/types.py`: (kind, pair id, optional expiry). -/
structure DataType where
  kind : DataTypes
  pairId : Nat
  expiry : Option Int
deriving DecidableEq

/-- One `set_checkpoints` contract invocation of `OracleMixin.set_checkpoints`:
the serialized spot data types of one page plus the aggregation mode. -/
structure CheckpointCall where
  dataTypes : List DataType
  agg : AggregationMode
deriving DecidableEq

/-- Embedding of `OracleMixin.set_checkpoints` (oracle.py lines 315-353).  The result carries
the list of contract invocations made (in order) together with the value the
method returns, which in the source is the single `invocation` variable, i.e.
the handle of the LAST page only. -/
def setCheckpoints (st : ClientState) (pairIds : List Nat) (agg : AggregationMode)
    (pagination : Option Nat) :
    Except String (List CheckpointCall × CheckpointCall) :=
  if st.isUserClient = false then .error accountError
  else
    match pagination with
    | some (p + 1) =>
      let pages := (chunks (p + 1) pairIds).map fun subset =>
        CheckpointCall.mk (subset.map fun pid => DataType.mk DataTypes.spot pid none) agg
      match pages.getLast? with
      | some last => .ok (pages, last)
      | none => .error unboundLocalError
    | _ =>
      let call := CheckpointCall.mk
        (pairIds.map fun pid => DataType.mk DataTypes.spot pid none) agg
      .ok ([call], call)

/-- One `set_checkpoints` contract invocation of
`OracleMixin.set_future_checkpoints`: a subset of the pair ids together with the
FULL expiry-timestamp list (the source never slices `expiry_timestamps`). -/
structure FutureCheckpointCall where
  pairIds : List Nat
  expiryTimestamps : List Int
  agg : AggregationMode
deriving DecidableEq

/-- Embedding of `OracleMixin.set_future_checkpoints` (oracle.py lines 277-313); like
`setCheckpoints`, the returned handle is the last page's invocation only. -/
def setFutureCheckpoints (st : ClientState) (pairIds : List Nat)
    (expiryTimestamps : List Int) (agg : AggregationMode) (pagination : Option Nat) :
    Except String (List FutureCheckpointCall × FutureCheckpointCall) :=
  if st.isUserClient = false then .error accountError
  else
    match pagination with
    | some (p + 1) =>
      let pages := (chunks (p + 1) pairIds).map fun subset =>
        FutureCheckpointCall.mk subset expiryTimestamps agg
      match pages.getLast? with
      | some last => .ok (pages, last)
      | none => .error unboundLocalError
    | _ =>
      .ok ([FutureCheckpointCall.mk pairIds expiryTimestamps agg],
        FutureCheckpointCall.mk pairIds expiryTimestamps agg)

/-- The pair-id argument of `get_spot` / `get_future`: a symbol string, a
pre-canonicalized integer, or anything else (e.g. a float). -/
inductive PairIdInput where
  | str (s : String)
  | int (n : Nat)
  | other
deriving DecidableEq

/-- Message of the `TypeError` raised for an unsupported pair-id type. -/
def pairIdError : String :=
  "Pair ID must be string (will be converted to felt) or integer"

/-- The `isinstance` dispatch at the top of `get_spot` / `get_future`. -/
def canonicalPairId : PairIdInput → Except String Nat
  | .str s => .ok (strToFelt s)
  | .int n => .ok n
  | .other => .error pairIdError

/-- An oracle read operation performed by `get_spot` / `get_future`: either the
all-sources `get_data` call or the source-restricted `get_data_for_sources`
call. -/
inductive OracleReadCall where
  | getData (dataType : DataType) (agg : AggregationMode)
  | getDataForSources (dataType : DataType) (agg : AggregationMode) (sources : List Nat)
deriving DecidableEq

/-- Embedding of `OracleMixin.get_spot` (oracle.py lines 162-194): the list of oracle read
calls it performs.  The branch is on `sources is None`; any supplied list
(including the empty one) goes to `get_data_for_sources`. -/
def getSpotCalls (pairId : PairIdInput) (agg : AggregationMode)
    (sources : Option (List Nat)) : Except String (List OracleReadCall) :=
  match canonicalPairId pairId with
  | .error e => .error e
  | .ok pid =>
    match sources with
    | none => .ok [OracleReadCall.getData (DataType.mk DataTypes.spot pid none) agg]
    | some srcs =>
      .ok [OracleReadCall.getDataForSources (DataType.mk DataTypes.spot pid none) agg srcs]

/-- Embedding of `OracleMixin.get_future` (oracle.py lines 196-230): the list of oracle read
calls it performs. -/
def getFutureCalls (pairId : PairIdInput) (expiryTimestamp : Int)
    (agg : AggregationMode) (sources : Option (List Nat)) :
    Except String (List OracleReadCall) :=
  match canonicalPairId pairId with
  | .error e => .error e
  | .ok pid =>
    match sources with
    | none =>
      .ok [OracleReadCall.getData (DataType.mk DataTypes.future pid (some expiryTimestamp)) agg]
    | some srcs =>
      .ok [OracleReadCall.getDataForSources
        (DataType.mk DataTypes.future pid (some expiryTimestamp)) agg srcs]

/-- The value-level result of one fetch attempt: a constructed `Entry` or the
error-as-value `PublisherFetchError` with its message. -/
inductive FetchResult where
  | entry (e : Entry)
  | failure (msg : String)
deriving DecidableEq

/-- One slot of the list `asyncio.gather(..., return_exceptions=True)` returns:
a value, or a captured raised exception. -/
inductive GatherItem where
  | result (r : FetchResult)
  | exn (msg : String)
deriving DecidableEq

/-- The not-found message `"No data found for {'/'.join(pair)} from {SOURCE}"`. -/
def noDataMsg (a : Asset) (sourceName : String) : String :=
  "No data found for " ++ a.base ++ "/" ++ a.quote ++ " from " ++ sourceName

/-- Left-to-right `Except`-valued map, mirroring a Python loop in which the
first raised exception aborts the whole call. -/
def exceptMapM {α β : Type} (f : α → Except String β) : List α → Except String (List β)
  | [] => .ok []
  | x :: xs =>
    match f x with
    | .error e => .error e
    | .ok y =>
      match exceptMapM f xs with
      | .error e => .error e
      | .ok ys => .ok (y :: ys)

/-- The possible shapes of a response of the CEX ticker endpoint, as
`CexFetcher._fetch_pair` distinguishes them. -/
inductive CexResp where
  | status404
  | badContentType (contentType : String)
  | invalidSymbols
  | ok (timestamp : Int) (last : ℚ) (volume : ℚ)
deriving DecidableEq

/-- Embedding of `CexFetcher._construct` (cex.py lines 95-113). -/
def cexConstruct (pub : String) (a : Asset) (timestamp : Int) (last volume : ℚ) : Entry :=
  { kind := EntryKind.spot,
    pairId := currencyPairToPairId a.base a.quote,
    price := scalePrice last a.decimals,
    timestamp := timestamp,
    volume := volume,
    source := "CEX",
    publisher := pub,
    expiryTimestamp := 0 }

/-- Embedding of `CexFetcher._fetch_pair` and `_fetch_pair_sync` (cex.py lines 27-69): 404 and
the `"Invalid Symbols Pair"` marker become `PublisherFetchError` values, an
unexpected content type raises `ValueError`, otherwise an entry is built. -/
def cexFetchPair (pub : String) (a : Asset) (resp : CexResp) : Except String FetchResult :=
  match resp with
  | .status404 => .ok (.failure (noDataMsg a "CEX"))
  | .badContentType ct => .error ("CEX: Unexpected content type: " ++ ct)
  | .invalidSymbols => .ok (.failure (noDataMsg a "CEX"))
  | .ok ts last volume => .ok (.entry (cexConstruct pub a ts last volume))

/-- How one `_fetch_pair` task surfaces in the gathered list. -/
def cexOutcome (pub : String) (a : Asset) (resp : CexResp) : GatherItem :=
  match cexFetchPair pub a resp with
  | .ok r => .result r
  | .error e => .exn e

/-- Embedding of `CexFetcher.fetch` (cex.py lines 71-80): one task per SPOT asset, gathered
with `return_exceptions=True`, in input order. -/
def cexFetch (pub : String) (assets : List Asset) (env : Asset → CexResp) :
    List GatherItem :=
  (assets.filter fun a => a.assetType = "SPOT").map fun a => cexOutcome pub a (env a)

/-- Embedding of `CexFetcher.fetch_sync` (cex.py lines 82-89): sequential, a raised
exception aborts the whole call. -/
def cexFetchSync (pub : String) (assets : List Asset) (env : Asset → CexResp) :
    Except String (List FetchResult) :=
  exceptMapM (fun a => cexFetchPair pub a (env a))
    (assets.filter fun a => a.assetType = "SPOT")

/-- The possible shapes of a Coinbase exchange-rates response, as
`CoinbaseFetcher._fetch_pair` distinguishes them; `rates` is the
`result["data"]["rates"]` mapping. -/
inductive CoinbaseResp where
  | status404
  | ok (rates : List (String × ℚ))
deriving DecidableEq

/-- Embedding of `CoinbaseFetcher._construct` (coinbase.py lines 82-102): reciprocal of the
quoted rate, scaled and truncated; an absent base symbol yields a
`PublisherFetchError` value. -/
def coinbaseConstruct (pub : String) (now : Int) (a : Asset)
    (rates : List (String × ℚ)) : FetchResult :=
  match rates.lookup a.base with
  | some rate =>
    FetchResult.entry
      { kind := EntryKind.spot,
        pairId := currencyPairToPairId a.base a.quote,
        price := pythonIntOfRat (1 / rate * (10 : ℚ) ^ a.decimals),
        timestamp := now,
        volume := 0,
        source := "COINBASE",
        publisher := pub,
        expiryTimestamp := 0 }
  | none =>
    .failure ("No entry found for " ++
      toString (currencyPairToPairId a.base a.quote) ++ " from Coinbase")

/-- Embedding of `CoinbaseFetcher._fetch_pair` (coinbase.py lines 27-39). -/
def coinbaseFetchPair (pub : String) (now : Int) (a : Asset) (resp : CoinbaseResp) :
    FetchResult :=
  match resp with
  | .status404 => .failure (noDataMsg a "Coinbase")
  | .ok rates => coinbaseConstruct pub now a rates

/-- Embedding of `CoinbaseFetcher.fetch` (coinbase.py lines 56-66). -/
def coinbaseFetch (pub : String) (now : Int) (assets : List Asset)
    (env : Asset → CoinbaseResp) : List GatherItem :=
  (assets.filter fun a => a.assetType = "SPOT").map fun a =>
    GatherItem.result (coinbaseFetchPair pub now a (env a))

/-- One element of `result["data"]` of the OKX tickers endpoint. -/
structure OkxTicker where
  instId : String
  ts : Int
  last : ℚ
  volCcy24h : ℚ
deriving DecidableEq

/-- The possible shapes of an OKX tickers response, as
`OkxFutureFetcher._fetch_pair` distinguishes them (`instrumentNotFound` is the
`code == "51001"` / `msg == "Instrument ID does not exist"` marker). -/
inductive OkxResp where
  | status404
  | badContentType (contentType : String)
  | instrumentNotFound
  | ok (data : List OkxTicker)
deriving DecidableEq

/-- What `OkxFutureFetcher._fetch_pair` returns when it does not raise: a
`PublisherFetchError` value or a (possibly empty) list of entries. -/
inductive OkxPairResult where
  | failure (msg : String)
  | entries (es : List Entry)
deriving DecidableEq

/-- Embedding of `OkxFutureFetcher._construct` (okx.py lines 151-168). -/
def okxConstruct (pub : String) (a : Asset) (t : OkxTicker) (expiryTimestamp : Int) :
    Entry :=
  { kind := EntryKind.future,
    pairId := currencyPairToPairId a.base a.quote,
    price := scalePrice t.last a.decimals,
    timestamp := t.ts.tdiv 1000,
    volume := t.volCcy24h,
    source := "OKX",
    publisher := pub,
    expiryTimestamp := expiryTimestamp }

/-- Embedding of `OkxFutureFetcher._fetch_pair` (okx.py lines 58-91).  `expEnv` is the
expiry-timestamp sub-fetch keyed by instrument id (`none` models the sub-fetch
returning a `PublisherFetchError`, on which `int(...)` in `_construct` raises a
`TypeError`).  Note the source only constructs entries when the ticker list has
STRICTLY MORE than one element; otherwise it returns the empty list. -/
def okxFetchPair (pub : String) (a : Asset) (resp : OkxResp)
    (expEnv : String → Option Int) : Except String OkxPairResult :=
  match resp with
  | .status404 => .ok (.failure (noDataMsg a "OKX"))
  | .badContentType ct => .error ("OKX: Unexpected content type: " ++ ct)
  | .instrumentNotFound => .ok (.failure (noDataMsg a "OKX"))
  | .ok data =>
    if 1 < data.length then
      match exceptMapM (fun t =>
        match expEnv t.instId with
        | some expTime => Except.ok (okxConstruct pub a t expTime)
        | none => Except.error "TypeError: expiry lookup returned an error value") data with
      | .ok es => .ok (.entries es)
      | .error e => .error e
    else .ok (.entries [])

/-- Embedding of `OkxFutureFetcher.fetch` and `fetch_sync` (okx.py lines 121-145): sequential
over the FUTURE assets; a returned list extends the result, a
`PublisherFetchError` is appended as a single item. -/
def okxFetchGo (pub : String) (env : Asset → OkxResp) (expEnv : String → Option Int) :
    List Asset → Except String (List FetchResult)
  | [] => .ok []
  | a :: rest =>
    if a.assetType = "FUTURE" then
      match okxFetchPair pub a (env a) expEnv with
      | .error e => .error e
      | .ok (.failure m) =>
        match okxFetchGo pub env expEnv rest with
        | .error e => .error e
        | .ok r => .ok (FetchResult.failure m :: r)
      | .ok (.entries es) =>
        match okxFetchGo pub env expEnv rest with
        | .error e => .error e
        | .ok r => .ok (es.map FetchResult.entry ++ r)
    else okxFetchGo pub env expEnv rest

/-- One element of the Binance premium-index response. -/
structure BinanceTicker where
  symbol : String
  time : Int
  markPrice : ℚ
deriving DecidableEq

/-- Embedding of `BinanceFutureFetcher.retrieve_volume` (binance.py lines 138-142): first
matching symbol's volume, else 0. -/
def retrieveVolume (symbol : String) (volumeArr : List (String × ℚ)) : ℚ :=
  match volumeArr.find? (fun q => q.1 = symbol) with
  | some q => q.2
  | none => 0

/-- Python `s.split("_")` on the character list. -/
def splitListOn (c : Char) : List Char → List (List Char)
  | [] => [[]]
  | x :: xs =>
    match splitListOn c xs with
    | [] => [[]]
    | r :: rs => if x = c then [] :: r :: rs else (x :: r) :: rs

/-- Python `symbol.split("_")`. -/
def pySplitUnderscore (s : String) : List String :=
  (splitListOn '_' s.toList).map List.asString

/-- Decimal digit value of a character, if any. -/
def digitVal? (c : Char) : Option Nat :=
  if c.isDigit then some (c.toNat - 48) else none

/-- Gregorian leap year. -/
def isLeapYear (y : Nat) : Bool :=
  decide (y % 4 = 0 ∧ (y % 100 ≠ 0 ∨ y % 400 = 0))

/-- Length of a month, used by `strptime` to validate the day field. -/
def daysInMonth (y m : Nat) : Nat :=
  if m = 2 then (if isLeapYear y then 29 else 28)
  else if m = 4 ∨ m = 6 ∨ m = 9 ∨ m = 11 then 30
  else 31

/-- Embedding of `datetime.strptime(s, "%y%m%d")`: two-digit year (00-68 maps into the
2000s, 69-99 into the 1900s, per the POSIX pivot Python uses), month and day,
validated; `none` models the raised `ValueError`. -/
def parseYYMMDD (s : String) : Option (Nat × Nat × Nat) :=
  match s.toList with
  | [c1, c2, c3, c4, c5, c6] =>
    match digitVal? c1, digitVal? c2, digitVal? c3, digitVal? c4,
        digitVal? c5, digitVal? c6 with
    | some a, some b, some c, some d, some e, some f =>
      let yy := 10 * a + b
      let y := if yy ≤ 68 then 2000 + yy else 1900 + yy
      let mo := 10 * c + d
      let da := 10 * e + f
      if 1 ≤ mo ∧ mo ≤ 12 ∧ 1 ≤ da ∧ da ≤ daysInMonth y mo then some (y, mo, da)
      else none
    | _, _, _, _, _, _ => none
  | _ => none

/-- Days from the Unix epoch to the civil date `y-m-d` (proleptic Gregorian,
the standard days-from-civil computation; valid for the post-1900 dates
`parseYYMMDD` produces). -/
def daysFromCivil (y m d : Nat) : Int :=
  let yAdj := if m ≤ 2 then y - 1 else y
  let era := yAdj / 400
  let yoe := yAdj % 400
  let mp := (m + 9) % 12
  let doy := (153 * mp + 2) / 5 + (d - 1)
  let doe := yoe * 365 + yoe / 4 - yoe / 100 + doy
  (era * 146097 + doe : Int) - 719468

/-- The expiry computation of `BinanceFutureFetcher._construct` (binance.py
lines 156-168), in epoch SECONDS: 0 for the suffix-less perpetual symbol,
otherwise the `_YYMMDD` suffix parsed by `strptime` and pinned to the
08:00:00 UTC settlement instant. -/
def binanceExpirySeconds (symbol selection : String) : Except String Int :=
  if symbol = selection then .ok 0
  else
    match pySplitUnderscore symbol with
    | _ :: suffix :: _ =>
      match parseYYMMDD suffix with
      | some (y, m, d) => .ok (daysFromCivil y m d * 86400 + 28800)
      | none => .error "ValueError: time data does not match the expected date form"
    | _ => .ok 0

/-- Embedding of `BinanceFutureFetcher._construct` (binance.py lines 144-180).  Note the
entry's own `timestamp` is converted from milliseconds to seconds, while the
expiry seconds are MULTIPLIED by 1000 on the way into the entry. -/
def binanceConstruct (pub : String) (a : Asset) (result : List BinanceTicker)
    (volumeArr : List (String × ℚ)) : Except String (List Entry) :=
  let selection := a.base ++ a.quote
  exceptMapM (fun data =>
    match binanceExpirySeconds data.symbol selection with
    | .error e => .error e
    | .ok expirySeconds =>
      Except.ok
        { kind := EntryKind.future,
          pairId := currencyPairToPairId a.base a.quote,
          price := scalePrice data.markPrice a.decimals,
          timestamp := data.time.tdiv 1000,
          volume := retrieveVolume data.symbol volumeArr,
          source := "BINANCE",
          publisher := pub,
          expiryTimestamp := expirySeconds * 1000 }) result

/-! ### General lemmas about the embedding -/

theorem ratFloor_eq_floor (q : ℚ) : q.floor = ⌊q⌋ := by
  rw [Rat.floor_def, Rat.floor_def']

theorem pythonIntOfRat_nonneg {q : ℚ} (h : 0 ≤ q) : pythonIntOfRat q = ⌊q⌋ := by
  rw [pythonIntOfRat, if_pos h, ratFloor_eq_floor]

theorem chunksGo_join {α : Type} (p : Nat) (hp : 0 < p) :
    ∀ (fuel : Nat) (l : List α), l.length ≤ fuel → (chunksGo p fuel l).join = l := by
  intro fuel
  induction fuel with
  | zero =>
    intro l hl
    have : l = [] := List.eq_nil_of_length_eq_zero (Nat.le_zero.mp hl)
    subst this
    rfl
  | succ n ih =>
    intro l hl
    match l with
    | [] => rfl
    | x :: xs =>
      have hdrop : ((x :: xs).drop p).length ≤ n := by
        rw [List.length_drop]
        simp only [List.length_cons] at hl ⊢
        omega
      simp only [chunksGo, List.join_cons, ih _ hdrop, List.take_append_drop]

theorem chunks_join {α : Type} {p : Nat} (hp : 0 < p) (l : List α) :
    (chunks p l).join = l :=
  chunksGo_join p hp l.length l le_rfl

theorem chunksGo_length {α : Type} (p : Nat) (hp : 0 < p) :
    ∀ (fuel : Nat) (l : List α), l.length ≤ fuel →
      (chunksGo p fuel l).length = (l.length + p - 1) / p := by
  intro fuel
  induction fuel with
  | zero =>
    intro l hl
    have : l = [] := List.eq_nil_of_length_eq_zero (Nat.le_zero.mp hl)
    subst this
    simp only [chunksGo, List.length_nil, Nat.zero_add]
    exact (Nat.div_eq_of_lt (by omega)).symm
  | succ n ih =>
    intro l hl
    match l with
    | [] =>
      simp only [chunksGo, List.length_nil, Nat.zero_add]
      exact (Nat.div_eq_of_lt (by omega)).symm
    | x :: xs =>
      have hdrop : ((x :: xs).drop p).length ≤ n := by
        rw [List.length_drop]
        simp only [List.length_cons] at hl ⊢
        omega
      have hlen : (0 : Nat) < (x :: xs).length := by simp
      simp only [chunksGo, List.length_cons] at ih ⊢
      rw [ih _ hdrop, List.length_drop]
      simp only [List.length_cons]
      rcases le_or_lt (x :: xs).length p with hle | hlt
      · simp only [List.length_cons] at hle
        have h1 : xs.length + 1 - p = 0 := by omega
        rw [h1]
        have h2 : (0 + p - 1) / p = 0 := Nat.div_eq_of_lt (by omega)
        rw [h2]
        have h3 : (xs.length + 1 + p - 1) / p = 1 := by
          apply Nat.div_eq_of_lt_le
          · omega
          · omega
        rw [h3]
      · simp only [List.length_cons] at hlt
        have h1 : xs.length + 1 - p + p - 1 = xs.length := by omega
        have h2 : xs.length + 1 + p - 1 = xs.length + p := by omega
        rw [h1, h2, Nat.add_div_right _ hp]

theorem chunks_length {α : Type} {p : Nat} (hp : 0 < p) (l : List α) :
    (chunks p l).length = (l.length + p - 1) / p :=
  chunksGo_length p hp l.length l le_rfl

theorem chunksGo_mem_length_le {α : Type} (p : Nat) :
    ∀ (fuel : Nat) (l : List α) (c : List α), c ∈ chunksGo p fuel l → c.length ≤ p := by
  intro fuel
  induction fuel with
  | zero =>
    intro l c hc
    match l with
    | [] => simp [chunksGo] at hc
    | x :: xs => simp [chunksGo] at hc
  | succ n ih =>
    intro l c hc
    match l with
    | [] => simp [chunksGo] at hc
    | x :: xs =>
      simp only [chunksGo, List.mem_cons] at hc
      rcases hc with h | h
      · subst h
        simp only [List.length_take]
        omega
      · exact ih _ _ h

theorem chunks_mem_length_le {α : Type} {p : Nat} {l c : List α}
    (hc : c ∈ chunks p l) : c.length ≤ p :=
  chunksGo_mem_length_le p l.length l c hc

theorem chunksGo_dropLast_length {α : Type} (p : Nat) (hp : 0 < p) :
    ∀ (fuel : Nat) (l : List α), l.length ≤ fuel →
      ∀ c ∈ (chunksGo p fuel l).dropLast, c.length = p := by
  intro fuel
  induction fuel with
  | zero =>
    intro l hl c hc
    have : l = [] := List.eq_nil_of_length_eq_zero (Nat.le_zero.mp hl)
    subst this
    simp [chunksGo] at hc
  | succ n ih =>
    intro l hl c hc
    match l with
    | [] => simp [chunksGo] at hc
    | x :: xs =>
      have hdrop : ((x :: xs).drop p).length ≤ n := by
        rw [List.length_drop]
        simp only [List.length_cons] at hl ⊢
        omega
      simp only [chunksGo] at hc
      rcases hrest : chunksGo p n ((x :: xs).drop p) with _ | ⟨r, rs⟩
      · rw [hrest] at hc
        simp at hc
      · rw [hrest] at hc
        rw [List.dropLast_cons_of_ne_nil (by simp)] at hc
        rcases List.mem_cons.mp hc with h | h
        · subst h
          have hne : (x :: xs).drop p ≠ [] := by
            intro hnil
            rw [hnil] at hrest
            simp [chunksGo] at hrest
          have hplen : p < (x :: xs).length := by
            by_contra hcon
            exact hne (List.drop_eq_nil_of_le (by omega))
          simp only [List.length_take]
          omega
        · exact ih _ hdrop c (by rw [hrest]; exact h)

theorem chunks_dropLast_length {α : Type} {p : Nat} (hp : 0 < p) (l : List α) :
    ∀ c ∈ (chunks p l).dropLast, c.length = p :=
  chunksGo_dropLast_length p hp l.length l le_rfl

theorem chunks_ne_nil {α : Type} {p : Nat} (hp : 0 < p) {l : List α} (hl : l ≠ []) :
    chunks p l ≠ [] := by
  intro hc
  apply hl
  have := chunks_join hp l
  rw [hc] at this
  exact this.symm

theorem pageCalls_kind (k : EntryKind) (pagination : Option Nat) (group : List Entry) :
    ∀ c ∈ pageCalls k pagination group, c.kind = k := by
  intro c hc
  match pagination with
  | some (p + 1) =>
    simp only [pageCalls, List.mem_map] at hc
    obtain ⟨pg, _, rfl⟩ := hc
    rfl
  | some 0 =>
    simp only [pageCalls] at hc
    split at hc
    · rcases List.mem_singleton.mp hc with rfl
      rfl
    · simp at hc
  | none =>
    simp only [pageCalls] at hc
    split at hc
    · rcases List.mem_singleton.mp hc with rfl
      rfl
    · simp at hc

theorem pageCalls_map_page (k : EntryKind) (p : Nat) (group : List Entry) :
    (pageCalls k (some (p + 1)) group).map PublishCall.page = chunks (p + 1) group := by
  simp only [pageCalls, List.map_map]
  have h : (PublishCall.page ∘ fun pg => ({ kind := k, page := pg } : PublishCall)) = id := rfl
  rw [h, List.map_id]

theorem pageCalls_join (k : EntryKind) (pagination : Option Nat) (group : List Entry) :
    ((pageCalls k pagination group).map PublishCall.page).join = group := by
  match pagination with
  | some (p + 1) =>
    rw [pageCalls_map_page]
    exact chunks_join (Nat.succ_pos p) group
  | some 0 =>
    simp only [pageCalls]
    split
    · simp
    · next h =>
      have : group = [] := by
        rcases group with _ | ⟨g, gs⟩
        · rfl
        · exact absurd (by simp) h
      simp [this]
  | none =>
    simp only [pageCalls]
    split
    · simp
    · next h =>
      have : group = [] := by
        rcases group with _ | ⟨g, gs⟩
        · rfl
        · exact absurd (by simp) h
      simp [this]

/-- C1: for every non-empty entry list and positive page size `p`,
`publish_many` partitions the entries into the spot group and the future group
and, for each group, issues `ceil(n/p)` write calls whose pages each carry at
most `p` entries (every page before a group's final one carries exactly `p`),
in the group's original order, non-overlapping and covering the group exactly
once — the concatenation of a group's pages is the group itself. -/
theorem claim1_publish_many_pagination (st : ClientState) (entries : List Entry)
    (p : Nat) (hp : 0 < p) (hne : entries ≠ []) :
    ∃ sp fp,
      publishMany st entries (some p) = some (sp ++ fp) ∧
      (∀ c ∈ sp, c.kind = EntryKind.spot) ∧
      (∀ c ∈ fp, c.kind = EntryKind.future) ∧
      ((sp.map PublishCall.page).join = serializeSpotEntries entries) ∧
      ((fp.map PublishCall.page).join = serializeFutureEntries entries) ∧
      sp.length = ((serializeSpotEntries entries).length + p - 1) / p ∧
      fp.length = ((serializeFutureEntries entries).length + p - 1) / p ∧
      (∀ c ∈ sp ++ fp, c.page.length ≤ p) ∧
      (∀ c ∈ sp.dropLast, c.page.length = p) ∧
      (∀ c ∈ fp.dropLast, c.page.length = p) := by
  obtain ⟨q, rfl⟩ : ∃ q, p = q + 1 := ⟨p - 1, by omega⟩
  refine ⟨pageCalls EntryKind.spot (some (q + 1)) (serializeSpotEntries entries),
    pageCalls EntryKind.future (some (q + 1)) (serializeFutureEntries entries),
    ?_, pageCalls_kind _ _ _, pageCalls_kind _ _ _,
    pageCalls_join _ _ _, pageCalls_join _ _ _, ?_, ?_, ?_, ?_, ?_⟩
  · rw [publishMany, if_neg (by simpa using hne)]
  · simp only [pageCalls, List.length_map]
    exact chunks_length (Nat.succ_pos q) _
  · simp only [pageCalls, List.length_map]
    exact chunks_length (Nat.succ_pos q) _
  · intro c hc
    rcases List.mem_append.mp hc with h | h
    · simp only [pageCalls, List.mem_map] at h
      obtain ⟨pg, hpg, rfl⟩ := h
      exact chunks_mem_length_le hpg
    · simp only [pageCalls, List.mem_map] at h
      obtain ⟨pg, hpg, rfl⟩ := h
      exact chunks_mem_length_le hpg
  · intro c hc
    simp only [pageCalls, ← List.map_dropLast, List.mem_map] at hc
    obtain ⟨pg, hpg, rfl⟩ := hc
    exact chunks_dropLast_length (Nat.succ_pos q) _ pg hpg
  · intro c hc
    simp only [pageCalls, ← List.map_dropLast, List.mem_map] at hc
    obtain ⟨pg, hpg, rfl⟩ := hc
    exact chunks_dropLast_length (Nat.succ_pos q) _ pg hpg

/-- A list of 85 spot entries, as in the pagination-exactness example of the spec. -/
def e85 : List Entry :=
  (List.range 85).map fun i =>
    { kind := EntryKind.spot, pairId := i, price := Int.ofNat i,
      timestamp := 1700000000, volume := 0, source := "CEX", publisher := "PUB",
      expiryTimestamp := 0 }

theorem claim1_publish_many_pagination_witness :
    ((0 : Nat) < 40 ∧ e85 ≠ []) ∧
    (∃ sp fp,
      publishMany { isUserClient := true } e85 (some 40) = some (sp ++ fp) ∧
      (∀ c ∈ sp, c.kind = EntryKind.spot) ∧
      (∀ c ∈ fp, c.kind = EntryKind.future) ∧
      ((sp.map PublishCall.page).join = serializeSpotEntries e85) ∧
      ((fp.map PublishCall.page).join = serializeFutureEntries e85) ∧
      sp.length = ((serializeSpotEntries e85).length + 40 - 1) / 40 ∧
      fp.length = ((serializeFutureEntries e85).length + 40 - 1) / 40 ∧
      (∀ c ∈ sp ++ fp, c.page.length ≤ 40) ∧
      (∀ c ∈ sp.dropLast, c.page.length = 40) ∧
      (∀ c ∈ fp.dropLast, c.page.length = 40)) ∧
    ((publishMany { isUserClient := true } e85 (some 40)).getD []).map
      (fun c => c.page.length) = [40, 40, 5] :=
  ⟨⟨by decide, by decide⟩,
    claim1_publish_many_pagination { isUserClient := true } e85 40 (by decide) (by decide),
    by decide⟩

/-- A single concrete spot entry. -/
def spotEntry0 : Entry :=
  { kind := EntryKind.spot, pairId := 1, price := 100, timestamp := 1700000000,
    volume := 0, source := "CEX", publisher := "PUB", expiryTimestamp := 0 }

/-- A single concrete future entry. -/
def futureEntry0 : Entry :=
  { kind := EntryKind.future, pairId := 2, price := 200, timestamp := 1700000000,
    volume := 0, source := "OKX", publisher := "PUB", expiryTimestamp := 1703836800000 }

/-- C2 counterexample: `publish_many` performs NO write-authorization check —
invoked on a client with `is_user_client = False` and a non-empty entry list, it
still submits a page, contradicting "no page is submitted when authorization is
absent". -/
theorem claim2_counterexample :
    publishMany { isUserClient := false } [spotEntry0] (some 40) =
      some [{ kind := EntryKind.spot, page := [spotEntry0] }] := by
  decide

/-- C2 (amended): the checkpoint write paths (`set_checkpoints`,
`set_future_checkpoints`) raise the fatal `AttributeError` before any chain
call when write authorization is absent; `publish_many`, by contrast, performs
no authorization check at all — its behaviour is identical with and without
authorization. -/
theorem claim2_write_authorization (pairIds : List Nat) (expiryTimestamps : List Int)
    (agg : AggregationMode) (pg1 pg2 pg3 : Option Nat) (entries : List Entry) :
    setCheckpoints { isUserClient := false } pairIds agg pg1 = .error accountError ∧
    setFutureCheckpoints { isUserClient := false } pairIds expiryTimestamps agg pg2 =
      .error accountError ∧
    publishMany { isUserClient := false } entries pg3 =
      publishMany { isUserClient := true } entries pg3 := by
  refine ⟨rfl, rfl, rfl⟩

/-- C9: `publish_many` submits all spot-group pages before any future-group
page, and its returned handle list is the spot-page handles followed by the
future-page handles, regardless of how spot and future entries are interleaved
in the input. -/
theorem claim9_spot_pages_before_future (st : ClientState) (entries : List Entry)
    (pagination : Option Nat) (calls : List PublishCall)
    (h : publishMany st entries pagination = some calls) :
    ∃ sp fp, calls = sp ++ fp ∧
      (∀ c ∈ sp, c.kind = EntryKind.spot) ∧
      (∀ c ∈ fp, c.kind = EntryKind.future) ∧
      ((sp.map PublishCall.page).join = serializeSpotEntries entries) ∧
      ((fp.map PublishCall.page).join = serializeFutureEntries entries) := by
  rw [publishMany] at h
  split at h
  · exact absurd h (by simp)
  · refine ⟨pageCalls EntryKind.spot pagination (serializeSpotEntries entries),
      pageCalls EntryKind.future pagination (serializeFutureEntries entries),
      ?_, pageCalls_kind _ _ _, pageCalls_kind _ _ _,
      pageCalls_join _ _ _, pageCalls_join _ _ _⟩
    exact (Option.some_inj.mp h).symm

theorem claim9_spot_pages_before_future_witness :
    (publishMany { isUserClient := true } [futureEntry0, spotEntry0] (some 40) =
      some [{ kind := EntryKind.spot, page := [spotEntry0] },
        { kind := EntryKind.future, page := [futureEntry0] }]) ∧
    (∃ sp fp,
      [{ kind := EntryKind.spot, page := [spotEntry0] },
        { kind := EntryKind.future, page := [futureEntry0] }] = sp ++ fp ∧
      (∀ c ∈ sp, c.kind = EntryKind.spot) ∧
      (∀ c ∈ fp, c.kind = EntryKind.future) ∧
      ((sp.map PublishCall.page).join = serializeSpotEntries [futureEntry0, spotEntry0]) ∧
      ((fp.map PublishCall.page).join = serializeFutureEntries [futureEntry0, spotEntry0])) :=
  ⟨by decide,
    claim9_spot_pages_before_future { isUserClient := true } [futureEntry0, spotEntry0]
      (some 40) _ (by decide)⟩

/-- C6 (amended): for a non-empty id list and positive page size `p`
(default 15), both checkpoint publishers issue `ceil(n/p)` sequential paged
calls whose pages cover the full pair-id list exactly once, in original order,
each page holding at most `p` ids — but the value returned to the caller is the
LAST page's submission handle only, not one handle per page
(`set_future_checkpoints` moreover passes the full expiry-timestamp list with
every page). -/
theorem claim6_checkpoint_pagination (pairIds : List Nat) (expiryTimestamps : List Int)
    (agg : AggregationMode) (p : Nat) (hp : 0 < p) (hne : pairIds ≠ []) :
    (∃ pages ret,
      setCheckpoints { isUserClient := true } pairIds agg (some p) =
        .ok (pages, ret) ∧
      pages.length = (pairIds.length + p - 1) / p ∧
      (pages.map fun c => c.dataTypes.map DataType.pairId).join = pairIds ∧
      (∀ c ∈ pages, c.dataTypes.length ≤ p ∧ c.agg = agg ∧
        ∀ dt ∈ c.dataTypes, dt.kind = DataTypes.spot ∧ dt.expiry = none) ∧
      pages.getLast? = some ret) ∧
    (∃ pages ret,
      setFutureCheckpoints { isUserClient := true } pairIds expiryTimestamps agg
        (some p) = .ok (pages, ret) ∧
      pages.length = (pairIds.length + p - 1) / p ∧
      (pages.map FutureCheckpointCall.pairIds).join = pairIds ∧
      (∀ c ∈ pages, c.pairIds.length ≤ p ∧
        c.expiryTimestamps = expiryTimestamps ∧ c.agg = agg) ∧
      pages.getLast? = some ret) := by
  obtain ⟨q, rfl⟩ : ∃ q, p = q + 1 := ⟨p - 1, by omega⟩
  have hq : (0 : Nat) < q + 1 := Nat.succ_pos q
  constructor
  · set pages := (chunks (q + 1) pairIds).map fun subset =>
      CheckpointCall.mk (subset.map fun pid => DataType.mk DataTypes.spot pid none) agg
      with hpages
    have hne2 : pages ≠ [] := by
      intro hnil
      exact chunks_ne_nil hq hne (List.map_eq_nil.mp (hpages ▸ hnil))
    obtain ⟨ret, hret⟩ : ∃ r, pages.getLast? = some r := by
      cases h : pages.getLast? with
      | none => exact absurd (List.getLast?_eq_none.mp h) hne2
      | some r => exact ⟨r, rfl⟩
    refine ⟨pages, ret, ?_, ?_, ?_, ?_, hret⟩
    · simp only [setCheckpoints, hpages] at hret ⊢
      rw [hret]
      rfl
    · rw [hpages, List.length_map]
      exact chunks_length hq _
    · rw [hpages, List.map_map]
      have h1 : ((fun c => List.map DataType.pairId c.dataTypes) ∘ fun (subset : List Nat) =>
          CheckpointCall.mk (subset.map fun pid => DataType.mk DataTypes.spot pid none) agg) = id := by
        funext subset
        simp only [Function.comp_apply, List.map_map]
        have h2 : (DataType.pairId ∘ fun pid => DataType.mk DataTypes.spot pid none) = id := rfl
        rw [h2, List.map_id]
        rfl
      rw [h1, List.map_id]
      exact chunks_join hq pairIds
    · intro c hc
      rw [hpages] at hc
      obtain ⟨subset, hsub, rfl⟩ := List.mem_map.mp hc
      refine ⟨by simpa using chunks_mem_length_le hsub, rfl, ?_⟩
      intro dt hdt
      obtain ⟨pid, _, rfl⟩ := List.mem_map.mp hdt
      exact ⟨rfl, rfl⟩
  · set pages := (chunks (q + 1) pairIds).map fun subset =>
      FutureCheckpointCall.mk subset expiryTimestamps agg with hpages
    have hne2 : pages ≠ [] := by
      intro hnil
      exact chunks_ne_nil hq hne (List.map_eq_nil.mp (hpages ▸ hnil))
    obtain ⟨ret, hret⟩ : ∃ r, pages.getLast? = some r := by
      cases h : pages.getLast? with
      | none => exact absurd (List.getLast?_eq_none.mp h) hne2
      | some r => exact ⟨r, rfl⟩
    refine ⟨pages, ret, ?_, ?_, ?_, ?_, hret⟩
    · simp only [setFutureCheckpoints, hpages] at hret ⊢
      rw [hret]
      rfl
    · rw [hpages, List.length_map]
      exact chunks_length hq _
    · rw [hpages, List.map_map]
      have h1 : (FutureCheckpointCall.pairIds ∘ fun subset =>
          FutureCheckpointCall.mk subset expiryTimestamps agg) = id := rfl
      rw [h1, List.map_id]
      exact chunks_join hq pairIds
    · intro c hc
      rw [hpages] at hc
      obtain ⟨subset, hsub, rfl⟩ := List.mem_map.mp hc
      exact ⟨chunks_mem_length_le hsub, rfl, rfl⟩

/-- C6 counterexample: on 20 pair ids with the default page size 15,
`set_checkpoints` issues two paged calls but returns a single handle — the one
of the SECOND (last) page, which differs from the first page's call — so it
does not return one submission handle per page. -/
theorem claim6_counterexample :
    (setCheckpoints { isUserClient := true } (List.range 20) AggregationMode.median
      (some 15) =
      .ok ([CheckpointCall.mk
              ((List.range 15).map fun pid => DataType.mk DataTypes.spot pid none)
              AggregationMode.median,
            CheckpointCall.mk
              ((List.range' 15 5).map fun pid => DataType.mk DataTypes.spot pid none)
              AggregationMode.median],
           CheckpointCall.mk
             ((List.range' 15 5).map fun pid => DataType.mk DataTypes.spot pid none)
             AggregationMode.median)) ∧
    CheckpointCall.mk
        ((List.range 15).map fun pid => DataType.mk DataTypes.spot pid none)
        AggregationMode.median ≠
      CheckpointCall.mk
        ((List.range' 15 5).map fun pid => DataType.mk DataTypes.spot pid none)
        AggregationMode.median :=
  ⟨by rfl, by decide⟩

theorem claim6_checkpoint_pagination_witness :
    ((0 : Nat) < 15 ∧ List.range 20 ≠ []) ∧
    ((∃ pages ret,
      setCheckpoints { isUserClient := true } (List.range 20) AggregationMode.median
        (some 15) = .ok (pages, ret) ∧
      pages.length = ((List.range 20).length + 15 - 1) / 15 ∧
      (pages.map fun c => c.dataTypes.map DataType.pairId).join = List.range 20 ∧
      (∀ c ∈ pages, c.dataTypes.length ≤ 15 ∧ c.agg = AggregationMode.median ∧
        ∀ dt ∈ c.dataTypes, dt.kind = DataTypes.spot ∧ dt.expiry = none) ∧
      pages.getLast? = some ret) ∧
    (∃ pages ret,
      setFutureCheckpoints { isUserClient := true } (List.range 20) [1703836800]
        AggregationMode.median (some 15) = .ok (pages, ret) ∧
      pages.length = ((List.range 20).length + 15 - 1) / 15 ∧
      (pages.map FutureCheckpointCall.pairIds).join = List.range 20 ∧
      (∀ c ∈ pages, c.pairIds.length ≤ 15 ∧
        c.expiryTimestamps = [1703836800] ∧ c.agg = AggregationMode.median) ∧
      pages.getLast? = some ret)) :=
  ⟨⟨by decide, by decide⟩,
    claim6_checkpoint_pagination (List.range 20) [1703836800] AggregationMode.median 15
      (by decide) (by decide)⟩

/-- C8 (amended): in `get_spot` and `get_future` the branch is on
`sources is None` — when no source list is supplied, exactly one oracle read is
performed via the unrestricted `get_data` operation; when any source list is
supplied (even an empty one), exactly one read is performed via the restricted
`get_data_for_sources` operation; never both within one call. -/
theorem claim8_read_path_selection (n : Nat) (s : String) (expiry : Int)
    (agg : AggregationMode) (srcs : List Nat) :
    getSpotCalls (PairIdInput.int n) agg none =
      .ok [OracleReadCall.getData (DataType.mk DataTypes.spot n none) agg] ∧
    getSpotCalls (PairIdInput.int n) agg (some srcs) =
      .ok [OracleReadCall.getDataForSources (DataType.mk DataTypes.spot n none) agg srcs] ∧
    getFutureCalls (PairIdInput.int n) expiry agg none =
      .ok [OracleReadCall.getData (DataType.mk DataTypes.future n (some expiry)) agg] ∧
    getFutureCalls (PairIdInput.int n) expiry agg (some srcs) =
      .ok [OracleReadCall.getDataForSources
        (DataType.mk DataTypes.future n (some expiry)) agg srcs] ∧
    getSpotCalls (PairIdInput.str s) agg none =
      .ok [OracleReadCall.getData (DataType.mk DataTypes.spot (strToFelt s) none) agg] ∧
    getSpotCalls PairIdInput.other agg none = .error pairIdError :=
  ⟨rfl, rfl, rfl, rfl, rfl, rfl⟩

/-- C8 counterexample: supplying an explicit EMPTY source list is not treated
like the "otherwise" (unrestricted) case of the claim — `get_spot` with
`sources = []` performs its single read through `get_data_for_sources` with an
empty source list, not through `get_data`. -/
theorem claim8_counterexample :
    getSpotCalls (PairIdInput.int 123) AggregationMode.median (some []) =
      .ok [OracleReadCall.getDataForSources
        (DataType.mk DataTypes.spot 123 none) AggregationMode.median []] ∧
    getSpotCalls (PairIdInput.int 123) AggregationMode.median (some []) ≠
      .ok [OracleReadCall.getData
        (DataType.mk DataTypes.spot 123 none) AggregationMode.median] :=
  ⟨rfl, by simp [getSpotCalls, canonicalPairId]⟩

/-- A spot asset with 0 decimals, for the scaling counterexample. -/
def assetD0 : Asset := { assetType := "SPOT", base := "ABC", quote := "USD", decimals := 0 }

/-- A spot asset with 8 decimals, as in the spec's scaling example. -/
def assetD8 : Asset := { assetType := "SPOT", base := "BTC", quote := "USD", decimals := 8 }

/-- C4 counterexample: the CEX constructor computes `int(price * 10 ** decimals)`,
which TRUNCATES; at observed price 3/2 with 0 decimals it produces 1, while
`round(3/2 * 10^0) = 2`, so the entry price does not equal the rounded scaled
observation. -/
theorem claim4_counterexample :
    (cexConstruct "PUB" assetD0 1700000000 ((3 : ℚ) / 2) 0).price = 1 ∧
    round (((3 : ℚ) / 2) * (10 : ℚ) ^ assetD0.decimals) = 2 ∧
    (cexConstruct "PUB" assetD0 1700000000 ((3 : ℚ) / 2) 0).price ≠
      round (((3 : ℚ) / 2) * (10 : ℚ) ^ assetD0.decimals) := by
  have h1 : (cexConstruct "PUB" assetD0 1700000000 ((3 : ℚ) / 2) 0).price = 1 := by
    with_unfolding_all rfl
  have h2 : round (((3 : ℚ) / 2) * (10 : ℚ) ^ assetD0.decimals) = 2 := by
    have hx : ((3 : ℚ) / 2) * (10 : ℚ) ^ assetD0.decimals = 3 / 2 := by
      norm_num [assetD0]
    rw [hx, round_eq]
    have hy : (3 : ℚ) / 2 + 1 / 2 = ((2 : ℤ) : ℚ) := by norm_num
    rw [hy, Int.floor_intCast]
  exact ⟨h1, h2, by rw [h1, h2]; decide⟩

/-- C4 (amended): for a nonnegative observed price `x` and `d` declared
decimals, the constructed entry's price field is the TRUNCATION
`int(x * 10^d) = ⌊x * 10^d⌋`, not the rounding: it is the unique integer `k`
with `k ≤ x * 10^d < k + 1`.  (The spec's own example is unaffected because
`42000.12 * 10^8` is an exact integer; see the witness.) -/
theorem claim4_price_scaling (pub : String) (a : Asset) (ts : Int) (x volume : ℚ)
    (hx : 0 ≤ x) :
    (cexConstruct pub a ts x volume).price = ⌊x * (10 : ℚ) ^ a.decimals⌋ ∧
    ((cexConstruct pub a ts x volume).price : ℚ) ≤ x * (10 : ℚ) ^ a.decimals ∧
    x * (10 : ℚ) ^ a.decimals < ((cexConstruct pub a ts x volume).price : ℚ) + 1 := by
  have hq : (0 : ℚ) ≤ x * (10 : ℚ) ^ a.decimals := by positivity
  have h1 : (cexConstruct pub a ts x volume).price = ⌊x * (10 : ℚ) ^ a.decimals⌋ := by
    show scalePrice x a.decimals = _
    rw [scalePrice, pythonIntOfRat_nonneg hq]
  refine ⟨h1, ?_, ?_⟩
  · rw [h1]
    exact_mod_cast Int.floor_le _
  · rw [h1]
    exact Int.lt_floor_add_one _

theorem claim4_price_scaling_witness :
    ((0 : ℚ) ≤ 4200012 / 100) ∧
    ((cexConstruct "PUB" assetD8 1700000000 (4200012 / 100) 0).price =
        ⌊(4200012 / 100 : ℚ) * (10 : ℚ) ^ assetD8.decimals⌋ ∧
      ((cexConstruct "PUB" assetD8 1700000000 (4200012 / 100) 0).price : ℚ) ≤
        (4200012 / 100 : ℚ) * (10 : ℚ) ^ assetD8.decimals ∧
      (4200012 / 100 : ℚ) * (10 : ℚ) ^ assetD8.decimals <
        ((cexConstruct "PUB" assetD8 1700000000 (4200012 / 100) 0).price : ℚ) + 1) ∧
    (cexConstruct "PUB" assetD8 1700000000 (4200012 / 100) 0).price = 4200012000000 :=
  ⟨by norm_num,
    claim4_price_scaling "PUB" assetD8 1700000000 (4200012 / 100) 0 (by norm_num),
    by with_unfolding_all rfl⟩

/-- C10: when the base symbol is present in `data.rates` with (nonzero,
positive) rate `r`, the Coinbase constructor produces a spot entry whose price
is `int((1 / r) * 10^decimals)` (the truncated scaled reciprocal of the quoted
rate); when the base symbol is absent it returns a `PublisherFetchError` VALUE
rather than raising. -/
theorem claim10_coinbase_reciprocal (pub : String) (now : Int) (a : Asset)
    (rates1 rates2 : List (String × ℚ)) (r : ℚ) (hr : 0 < r)
    (h1 : rates1.lookup a.base = some r) (h2 : rates2.lookup a.base = none) :
    (∃ e, coinbaseConstruct pub now a rates1 = FetchResult.entry e ∧
      e.price = pythonIntOfRat (1 / r * (10 : ℚ) ^ a.decimals) ∧
      e.timestamp = now ∧ e.kind = EntryKind.spot) ∧
    (∃ msg, coinbaseConstruct pub now a rates2 = FetchResult.failure msg) := by
  constructor
  · have heq : coinbaseConstruct pub now a rates1 = FetchResult.entry
        { kind := EntryKind.spot, pairId := currencyPairToPairId a.base a.quote,
          price := pythonIntOfRat (1 / r * (10 : ℚ) ^ a.decimals),
          timestamp := now, volume := 0, source := "COINBASE", publisher := pub,
          expiryTimestamp := 0 } := by
      simp only [coinbaseConstruct, h1]
    exact ⟨_, heq, rfl, rfl, rfl⟩
  · have heq : coinbaseConstruct pub now a rates2 = FetchResult.failure
        ("No entry found for " ++ toString (currencyPairToPairId a.base a.quote) ++
          " from Coinbase") := by
      simp only [coinbaseConstruct, h2]
    exact ⟨_, heq⟩

theorem claim10_coinbase_reciprocal_witness :
    ((0 : ℚ) < 25 ∧ ([("BTC", (25 : ℚ))].lookup assetD8.base = some 25) ∧
      (([] : List (String × ℚ)).lookup assetD8.base = none)) ∧
    ((∃ e, coinbaseConstruct "PUB" 12345 assetD8 [("BTC", (25 : ℚ))] =
        FetchResult.entry e ∧
      e.price = pythonIntOfRat (1 / 25 * (10 : ℚ) ^ assetD8.decimals) ∧
      e.timestamp = 12345 ∧ e.kind = EntryKind.spot) ∧
    (∃ msg, coinbaseConstruct "PUB" 12345 assetD8 [] = FetchResult.failure msg)) ∧
    pythonIntOfRat (1 / 25 * (10 : ℚ) ^ assetD8.decimals) = 4000000 :=
  ⟨⟨by norm_num, by with_unfolding_all rfl, rfl⟩,
    claim10_coinbase_reciprocal "PUB" 12345 assetD8 [("BTC", (25 : ℚ))] [] 25
      (by norm_num) (by with_unfolding_all rfl) rfl,
    by with_unfolding_all rfl⟩

theorem exceptMapM_ok {α β : Type} (f : α → Except String β) (g : α → β)
    (hf : ∀ a, f a = .ok (g a)) (l : List α) : exceptMapM f l = .ok (l.map g) := by
  induction l with
  | nil => rfl
  | cons x xs ih =>
    simp only [exceptMapM, hf x, ih, List.map_cons]

theorem okxFetchGo_all404 (pub : String) (expEnv : String → Option Int)
    (assets : List Asset) :
    okxFetchGo pub (fun _ => OkxResp.status404) expEnv assets =
      .ok ((assets.filter fun a => a.assetType = "FUTURE").map fun a =>
        FetchResult.failure (noDataMsg a "OKX")) := by
  induction assets with
  | nil => rfl
  | cons a rest ih =>
    by_cases h : a.assetType = "FUTURE"
    · simp only [okxFetchGo, if_pos h, okxFetchPair, ih, List.filter_cons,
        decide_eq_true_eq, h, if_pos, List.map_cons]
    · simp only [okxFetchGo, if_neg h, ih, List.filter_cons]
      rw [if_neg (by simpa using h)]

/-- C7: an HTTP 404 response turns into exactly one `PublisherFetchError` value
with message `"No data found for BASE/QUOTE from SOURCE"` per matching asset —
one item per asset, in input order — and neither `fetch` nor `fetch_sync`
raises; shown for the CEX, Coinbase and OKX fetchers, with the message shape
pinned on a concrete asset. -/
theorem claim7_not_found_404 (pub : String) (now : Int) (assets : List Asset)
    (expEnv : String → Option Int) :
    cexFetch pub assets (fun _ => CexResp.status404) =
      (assets.filter fun a => a.assetType = "SPOT").map
        (fun a => GatherItem.result (FetchResult.failure (noDataMsg a "CEX"))) ∧
    cexFetchSync pub assets (fun _ => CexResp.status404) =
      .ok ((assets.filter fun a => a.assetType = "SPOT").map
        (fun a => FetchResult.failure (noDataMsg a "CEX"))) ∧
    coinbaseFetch pub now assets (fun _ => CoinbaseResp.status404) =
      (assets.filter fun a => a.assetType = "SPOT").map
        (fun a => GatherItem.result (FetchResult.failure (noDataMsg a "Coinbase"))) ∧
    okxFetchGo pub (fun _ => OkxResp.status404) expEnv assets =
      .ok ((assets.filter fun a => a.assetType = "FUTURE").map fun a =>
        FetchResult.failure (noDataMsg a "OKX")) ∧
    noDataMsg assetD8 "CEX" = "No data found for BTC/USD from CEX" := by
  refine ⟨rfl, ?_, rfl, okxFetchGo_all404 pub expEnv assets, rfl⟩
  exact exceptMapM_ok _ (fun a => FetchResult.failure (noDataMsg a "CEX"))
    (fun a => rfl) _

theorem exceptMapM_length {α β : Type} (f : α → Except String β) (l : List α)
    (h : ∀ a ∈ l, ∃ b, f a = .ok b) :
    ∃ ys, exceptMapM f l = .ok ys ∧ ys.length = l.length := by
  induction l with
  | nil => exact ⟨[], rfl, rfl⟩
  | cons x xs ih =>
    obtain ⟨b, hb⟩ := h x (List.mem_cons_self x xs)
    obtain ⟨ys, hys, hlen⟩ := ih fun a ha => h a (List.mem_cons_of_mem x ha)
    refine ⟨b :: ys, ?_, by simp [hlen]⟩
    simp only [exceptMapM, hb, hys]

/-- A concrete future asset for the OKX examples. -/
def okxAsset : Asset := { assetType := "FUTURE", base := "BTC", quote := "USD", decimals := 8 }

/-- A concrete OKX ticker. -/
def okxTicker1 : OkxTicker :=
  { instId := "BTC-USD-231229", ts := 1703000000000, last := 42000, volCcy24h := 100 }

/-- A second concrete OKX ticker. -/
def okxTicker2 : OkxTicker :=
  { instId := "BTC-USD-240329", ts := 1703000000000, last := 43000, volCcy24h := 200 }

/-- C3 counterexample: `OkxFutureFetcher.fetch` on ONE future asset whose
tickers response carries exactly one instrument returns the EMPTY list — the
attempted asset contributes zero items, not exactly one. -/
theorem claim3_counterexample :
    okxFetchGo "PUB" (fun _ => OkxResp.ok [okxTicker1])
      (fun _ => some 1703836800000) [okxAsset] = .ok [] := by
  rfl

/-- C3 (amended): the spot fetchers (CEX, Coinbase) return exactly one item
(entry or failure) per SPOT asset, in input asset order; the OKX future fetcher
instead contributes a variable number of items per asset: one failure item on
404, ZERO items when the tickers response holds at most one instrument, and one
entry per instrument (k items) when it holds k ≥ 2 instruments. -/
theorem claim3_one_item_per_asset (pub : String) (now : Int) (assets : List Asset)
    (envC : Asset → CexResp) (envB : Asset → CoinbaseResp) (a : Asset)
    (expEnv : String → Option Int) (dataOne dataMany : List OkxTicker)
    (ha : a.assetType = "FUTURE") (hone : dataOne.length ≤ 1)
    (hmany : 1 < dataMany.length)
    (hexp : ∀ t ∈ dataMany, ∃ v, expEnv t.instId = some v) :
    (cexFetch pub assets envC).length =
      (assets.filter fun x => x.assetType = "SPOT").length ∧
    (coinbaseFetch pub now assets envB).length =
      (assets.filter fun x => x.assetType = "SPOT").length ∧
    okxFetchGo pub (fun _ => OkxResp.status404) expEnv [a] =
      .ok [FetchResult.failure (noDataMsg a "OKX")] ∧
    okxFetchGo pub (fun _ => OkxResp.ok dataOne) expEnv [a] = .ok [] ∧
    (∃ r, okxFetchGo pub (fun _ => OkxResp.ok dataMany) expEnv [a] = .ok r ∧
      r.length = dataMany.length) := by
  refine ⟨List.length_map _ _, List.length_map _ _, ?_, ?_, ?_⟩
  · simp only [okxFetchGo, if_pos ha, okxFetchPair]
  · simp only [okxFetchGo, if_pos ha, okxFetchPair, if_neg (by omega : ¬ 1 < dataOne.length)]
    rfl
  · obtain ⟨ys, hys, hlen⟩ := exceptMapM_length
      (fun t => match expEnv t.instId with
        | some expTime => Except.ok (okxConstruct pub a t expTime)
        | none => Except.error "TypeError: expiry lookup returned an error value")
      dataMany
      (by
        intro t ht
        obtain ⟨v, hv⟩ := hexp t ht
        exact ⟨okxConstruct pub a t v, by simp only [hv]⟩)
    refine ⟨ys.map FetchResult.entry, ?_, by simp [hlen]⟩
    simp only [okxFetchGo, if_pos ha, okxFetchPair, if_pos hmany, hys]
    rw [List.append_nil]

theorem claim3_one_item_per_asset_witness :
    (okxAsset.assetType = "FUTURE" ∧ ([okxTicker1] : List OkxTicker).length ≤ 1 ∧
      1 < ([okxTicker1, okxTicker2] : List OkxTicker).length ∧
      (∀ t ∈ ([okxTicker1, okxTicker2] : List OkxTicker), ∃ v,
        (fun _ => some (1703836800000 : Int)) t.instId = some v)) ∧
    ((cexFetch "PUB" [assetD8, okxAsset] (fun _ => CexResp.status404)).length =
      ([assetD8, okxAsset].filter fun x => x.assetType = "SPOT").length ∧
    (coinbaseFetch "PUB" 12345 [assetD8, okxAsset] (fun _ => CoinbaseResp.status404)).length =
      ([assetD8, okxAsset].filter fun x => x.assetType = "SPOT").length ∧
    okxFetchGo "PUB" (fun _ => OkxResp.status404) (fun _ => some 1703836800000) [okxAsset] =
      .ok [FetchResult.failure (noDataMsg okxAsset "OKX")] ∧
    okxFetchGo "PUB" (fun _ => OkxResp.ok [okxTicker1]) (fun _ => some 1703836800000)
      [okxAsset] = .ok [] ∧
    (∃ r, okxFetchGo "PUB" (fun _ => OkxResp.ok [okxTicker1, okxTicker2])
      (fun _ => some 1703836800000) [okxAsset] = .ok r ∧
      r.length = ([okxTicker1, okxTicker2] : List OkxTicker).length)) :=
  ⟨⟨rfl, by decide, by decide, fun t ht => ⟨1703836800000, rfl⟩⟩,
    claim3_one_item_per_asset "PUB" 12345 [assetD8, okxAsset]
      (fun _ => CexResp.status404) (fun _ => CoinbaseResp.status404) okxAsset
      (fun _ => some 1703836800000) [okxTicker1] [okxTicker1, okxTicker2]
      rfl (by decide) (by decide) (fun t ht => ⟨1703836800000, rfl⟩)⟩

/-- A concrete future asset for the Binance examples (so `selection` is
`"BTCUSD"`). -/
def binAsset : Asset := { assetType := "FUTURE", base := "BTC", quote := "USD", decimals := 8 }

/-- The dated Binance instrument of the spec's example. -/
def binTickerDated : BinanceTicker :=
  { symbol := "BTCUSD_231229", time := 1703000000000, markPrice := 42000 }

/-- The entry `BinanceFutureFetcher._construct` produces for a perpetual
(suffix-less) instrument. -/
def binancePerpEntry (pub : String) (a : Asset) (t : Int) (mp : ℚ)
    (volumeArr : List (String × ℚ)) : Entry :=
  { kind := EntryKind.future,
    pairId := currencyPairToPairId a.base a.quote,
    price := scalePrice mp a.decimals,
    timestamp := t.tdiv 1000,
    volume := retrieveVolume (a.base ++ a.quote) volumeArr,
    source := "BINANCE",
    publisher := pub,
    expiryTimestamp := 0 }

/-- The entry `BinanceFutureFetcher._construct` produces for a dated
instrument whose suffix parses to the civil date `y-m-d`. -/
def binanceDatedEntry (pub : String) (a : Asset) (sym : String) (t : Int) (mp : ℚ)
    (volumeArr : List (String × ℚ)) (y m d : Nat) : Entry :=
  { kind := EntryKind.future,
    pairId := currencyPairToPairId a.base a.quote,
    price := scalePrice mp a.decimals,
    timestamp := t.tdiv 1000,
    volume := retrieveVolume sym volumeArr,
    source := "BINANCE",
    publisher := pub,
    expiryTimestamp := (daysFromCivil y m d * 86400 + 28800) * 1000 }

/-- C5 counterexample: for `BTCUSD_231229` the constructed entry's
`expiry_timestamp` is `1703836800000` — the 2023-12-29T08:00:00Z instant in
MILLISECONDS (the epoch-seconds value multiplied by 1000) — while the same
entry's own `timestamp` field is in SECONDS (`1703000000` here), so the expiry
is NOT in the same time unit as the pipeline's timestamps; in that unit the
settlement instant would be `1703836800`. -/
theorem claim5_counterexample :
    binanceConstruct "PUB" binAsset [binTickerDated] [] =
      .ok [binanceDatedEntry "PUB" binAsset "BTCUSD_231229" 1703000000000 42000 [] 2023 12 29] ∧
    (binanceDatedEntry "PUB" binAsset "BTCUSD_231229" 1703000000000 42000 [] 2023 12 29).expiryTimestamp
      = 1703836800000 ∧
    (binanceDatedEntry "PUB" binAsset "BTCUSD_231229" 1703000000000 42000 [] 2023 12 29).timestamp
      = 1703000000 ∧
    (1703836800000 : Int) ≠ 1703836800 := by
  refine ⟨?_, ?_, ?_, by decide⟩
  · with_unfolding_all rfl
  · with_unfolding_all rfl
  · with_unfolding_all rfl

/-- C5 (amended): a Binance future symbol with no date suffix yields
`expiry_timestamp = 0`; a symbol carrying a `_YYMMDD` suffix yields the epoch
timestamp of that date's 08:00:00 UTC settlement instant MULTIPLIED BY 1000
(milliseconds), whereas the entry's own timestamp is the source's millisecond
time divided down to seconds — the two fields are in different units. -/
theorem claim5_binance_expiry (pub : String) (a : Asset) (t : Int) (mp : ℚ)
    (volumeArr : List (String × ℚ)) (sym pre suffix : String) (y m d : Nat)
    (hsym : sym ≠ a.base ++ a.quote)
    (hsplit : pySplitUnderscore sym = [pre, suffix])
    (hparse : parseYYMMDD suffix = some (y, m, d)) :
    (binanceConstruct pub a
        [{ symbol := a.base ++ a.quote, time := t, markPrice := mp }] volumeArr =
      .ok [binancePerpEntry pub a t mp volumeArr] ∧
      (binancePerpEntry pub a t mp volumeArr).expiryTimestamp = 0 ∧
      (binancePerpEntry pub a t mp volumeArr).timestamp = t.tdiv 1000) ∧
    (binanceConstruct pub a [{ symbol := sym, time := t, markPrice := mp }]
        volumeArr = .ok [binanceDatedEntry pub a sym t mp volumeArr y m d] ∧
      (binanceDatedEntry pub a sym t mp volumeArr y m d).expiryTimestamp =
        (daysFromCivil y m d * 86400 + 28800) * 1000 ∧
      (binanceDatedEntry pub a sym t mp volumeArr y m d).timestamp = t.tdiv 1000) := by
  refine ⟨⟨?_, by simp [binancePerpEntry], rfl⟩, ⟨?_, rfl, rfl⟩⟩
  · simp only [binanceConstruct, exceptMapM, binanceExpirySeconds, if_pos rfl,
      if_true, zero_mul, binancePerpEntry]
  · simp only [binanceConstruct, exceptMapM, binanceExpirySeconds, if_neg hsym,
      hsplit, hparse, binanceDatedEntry]

theorem claim5_binance_expiry_witness :
    (("BTCUSD_231229" : String) ≠ binAsset.base ++ binAsset.quote ∧
      pySplitUnderscore "BTCUSD_231229" = ["BTCUSD", "231229"] ∧
      parseYYMMDD "231229" = some (2023, 12, 29)) ∧
    ((binanceConstruct "PUB" binAsset
        [{ symbol := binAsset.base ++ binAsset.quote, time := 1703000000000,
           markPrice := 42000 }] [] =
      .ok [binancePerpEntry "PUB" binAsset 1703000000000 42000 []] ∧
      (binancePerpEntry "PUB" binAsset 1703000000000 42000 []).expiryTimestamp = 0 ∧
      (binancePerpEntry "PUB" binAsset 1703000000000 42000 []).timestamp =
        (1703000000000 : Int).tdiv 1000) ∧
    (binanceConstruct "PUB" binAsset
        [{ symbol := "BTCUSD_231229", time := 1703000000000, markPrice := 42000 }] [] =
      .ok [binanceDatedEntry "PUB" binAsset "BTCUSD_231229" 1703000000000 42000 [] 2023 12 29] ∧
      (binanceDatedEntry "PUB" binAsset "BTCUSD_231229" 1703000000000 42000 [] 2023 12 29).expiryTimestamp =
        (daysFromCivil 2023 12 29 * 86400 + 28800) * 1000 ∧
      (binanceDatedEntry "PUB" binAsset "BTCUSD_231229" 1703000000000 42000 [] 2023 12 29).timestamp =
        (1703000000000 : Int).tdiv 1000)) ∧
    (daysFromCivil 2023 12 29 * 86400 + 28800) * 1000 = 1703836800000 :=
  ⟨⟨by decide, by decide, by decide⟩,
    claim5_binance_expiry "PUB" binAsset 1703000000000 42000 [] "BTCUSD_231229"
      "BTCUSD" "231229" 2023 12 29 (by decide) (by decide) (by decide),
    by decide⟩
